import Mathlib

/-
Shallow embedding of src/python-pscheduler/pscheduler/pscheduler/jsonval.py.

The module holds a large literal type dictionary (`__dictionary__`), a fixed
envelope schema (`__default_schema__`) and one function, `json_validate`,
which layers a caller-supplied skeleton over the envelope, self-checks the
composed schema, validates an instance and formats the first failure.

JSON values are embedded as the inductive `JValue`; Python dictionaries
become association lists (`PyDict`).  The two calls into the external
`jsonschema` library (`Draft4Validator.check_schema` and
`jsonschema.validate` with a `FormatChecker`) are passed in as explicit
collaborator parameters: `check_schema` returns `some msg` when it would
raise a `SchemaError`, and `validate` returns the first validation failure
(`ValidationError`) as a `ValidationFailure` record, or `none` when the
instance satisfies the schema.  Everything else - the input checks, the
schema composition loop, the `x-invalid-message` template substitution and
the path-prefixed message formatting - is translated directly from the
source.
-/

/-- A JSON value: Python dicts become `obj` over association lists, floats in
the source dictionary (only the literals 0.0 and 1.0 occur) become `num`
rationals. -/
inductive JValue where
  | null
  | bool (b : Bool)
  | int (n : Int)
  | num (q : Rat)
  | str (s : String)
  | arr (xs : List JValue)
  | obj (kvs : List (String × JValue))

/-- The top level of a Python dictionary with string keys. -/
abbrev PyDict := List (String × JValue)

/-- Python `d[k]` lookup, as an `Option` (a `KeyError` is `none`). -/
def lookupKey (l : PyDict) (k : String) : Option JValue :=
  match l with
  | [] => none
  | (k', v) :: rest => if k' = k then some v else lookupKey rest k

/-- Python `d[k] = v` on a dictionary's own top level: replaces the existing
binding for `k` or appends a new one. -/
def setKey (l : PyDict) (k : String) (v : JValue) : PyDict :=
  match l with
  | [] => [(k, v)]
  | (k', v') :: rest => if k' = k then (k, v) :: rest else (k', v') :: setKey rest k v

/-- The dictionary's `Duration` entry (jsonval.py lines 108-115): a
pattern-constrained string carrying an `x-invalid-message` template. -/
def Duration_def : PyDict := [
  ("type", .str "string"),
  ("pattern", .str "^P(?:\\d+(?:\\.\\d+)?W)?(?:\\d+(?:\\.\\d+)?D)?(?:T(?:\\d+(?:\\.\\d+)?H)?(?:\\d+(?:\\.\\d+)?M)?(?:\\d+(?:\\.\\d+)?S)?)?$"),
  ("x-invalid-message", .str "\x27%s\x27 is not a valid ISO 8601 duration.")]

/-- The dictionary's `UInt64` entry (jsonval.py lines 226-230), with the
`maximum` literal exactly as written in the source: 184446744073709551615,
which is not 2^64 - 1 = 18446744073709551615. -/
def UInt64_def : PyDict := [
  ("type", .str "integer"),
  ("minimum", .int 0),
  ("maximum", .int 184446744073709551615)]

/-- The pScheduler type dictionary, `__dictionary__` (jsonval.py lines 23-721), transcribed entry for entry. -/
def __dictionary__ : PyDict := [
  ("AnyJSON", .obj [
      ("oneOf", .arr [
        .obj [
          ("type", .str "array")],
        .obj [
          ("type", .str "boolean")],
        .obj [
          ("type", .str "integer")],
        .obj [
          ("type", .str "null")],
        .obj [
          ("type", .str "number")],
        .obj [
          ("type", .str "object")],
        .obj [
          ("type", .str "string")]])]),
  ("Array", .obj [
      ("type", .str "array")]),
  ("AS", .obj [
      ("type", .str "object"),
      ("properties", .obj [
        ("number", .obj [
          ("$ref", .str "#/pScheduler/Cardinal")]),
        ("owner", .obj [
          ("type", .str "string")])]),
      ("additionalProperties", .bool false),
      ("required", .arr [
        .str "number"])]),
  ("Boolean", .obj [
      ("type", .str "boolean")]),
  ("Cardinal", .obj [
      ("type", .str "integer"),
      ("minimum", .int 1)]),
  ("CardinalList", .obj [
      ("type", .str "array"),
      ("items", .obj [
        ("$ref", .str "#/pScheduler/Cardinal")])]),
  ("CardinalRange", .obj [
      ("type", .str "object"),
      ("properties", .obj [
        ("lower", .obj [
          ("$ref", .str "#/pScheduler/Cardinal")]),
        ("upper", .obj [
          ("$ref", .str "#/pScheduler/Cardinal")])]),
      ("additionalProperties", .bool false),
      ("required", .arr [
        .str "lower",
        .str "upper"])]),
  ("CardinalZero", .obj [
      ("type", .str "integer"),
      ("minimum", .int 0)]),
  ("CardinalZeroList", .obj [
      ("type", .str "array"),
      ("items", .obj [
        ("$ref", .str "#/pScheduler/CardinalZero")])]),
  ("CardinalZeroRange", .obj [
      ("type", .str "object"),
      ("properties", .obj [
        ("lower", .obj [
          ("$ref", .str "#/pScheduler/CardinalZero")]),
        ("upper", .obj [
          ("$ref", .str "#/pScheduler/CardinalZero")])]),
      ("additionalProperties", .bool false),
      ("required", .arr [
        .str "lower",
        .str "upper"])]),
  ("ClockState", .obj [
      ("type", .str "object"),
      ("properties", .obj [
        ("time", .obj [
          ("$ref", .str "#/pScheduler/Timestamp")]),
        ("synchronized", .obj [
          ("$ref", .str "#/pScheduler/Boolean")]),
        ("source", .obj [
          ("$ref", .str "#/pScheduler/String")]),
        ("reference", .obj [
          ("$ref", .str "#/pScheduler/String")]),
        ("offset", .obj [
          ("$ref", .str "#/pScheduler/Number")])]),
      ("additionalProperties", .bool false),
      ("required", .arr [
        .str "time",
        .str "synchronized"])]),
  ("Duration", .obj Duration_def),
  ("DurationRange", .obj [
      ("type", .str "object"),
      ("properties", .obj [
        ("lower", .obj [
          ("$ref", .str "#/pScheduler/Duration")]),
        ("upper", .obj [
          ("$ref", .str "#/pScheduler/Duration")])]),
      ("additionalProperties", .bool false),
      ("required", .arr [
        .str "lower",
        .str "upper"])]),
  ("Email", .obj [
      ("type", .str "string"),
      ("format", .str "email")]),
  ("Float", .obj [
      ("type", .str "number")]),
  ("GeographicPosition", .obj [
      ("type", .str "string"),
      ("pattern", .str "^(([+-]\\d\x7b2\x7d)(\\d\x7b2\x7d)?(\\d\x7b2\x7d)?(\\.\\d+)?)(([+-]\\d\x7b3\x7d)(\\d\x7b2\x7d)?(\\d\x7b2\x7d)?(\\.\\d+)?)([+-]\\d+(\\.\\d+)?)?$")]),
  ("Host", .obj [
      ("anyOf", .arr [
        .obj [
          ("$ref", .str "#/pScheduler/HostName")],
        .obj [
          ("$ref", .str "#/pScheduler/IPAddress")]])]),
  ("HostName", .obj [
      ("type", .str "string"),
      ("format", .str "host-name")]),
  ("Integer", .obj [
      ("type", .str "integer")]),
  ("IPAddress", .obj [
      ("oneOf", .arr [
        .obj [
          ("type", .str "string"),
          ("format", .str "ipv4")],
        .obj [
          ("type", .str "string"),
          ("format", .str "ipv6")]])]),
  ("IPv4", .obj [
      ("type", .str "string"),
      ("format", .str "ipv4")]),
  ("IPv6", .obj [
      ("type", .str "string"),
      ("format", .str "ipv6")]),
  ("IPv4CIDR", .obj [
      ("type", .str "string"),
      ("pattern", .str "^(([0-9]|[1-9][0-9]|1[0-9]\x7b2\x7d|2[0-4][0-9]|25[0-5])\\.)\x7b3\x7d([0-9]|[1-9][0-9]|1[0-9]\x7b2\x7d|2[0-4][0-9]|25[0-5])(\\/([0-9]|[1-2][0-9]|3[0-2]))$")]),
  ("IPv6CIDR", .obj [
      ("type", .str "string"),
      ("pattern", .str "^s*((([0-9A-Fa-f]\x7b1,4\x7d:)\x7b7\x7d([0-9A-Fa-f]\x7b1,4\x7d|:))|(([0-9A-Fa-f]\x7b1,4\x7d:)\x7b6\x7d(:[0-9A-Fa-f]\x7b1,4\x7d|((25[0-5]|2[0-4]d|1dd|[1-9]?d)(.(25[0-5]|2[0-4]d|1dd|[1-9]?d))\x7b3\x7d)|:))|(([0-9A-Fa-f]\x7b1,4\x7d:)\x7b5\x7d(((:[0-9A-Fa-f]\x7b1,4\x7d)\x7b1,2\x7d)|:((25[0-5]|2[0-4]d|1dd|[1-9]?d)(.(25[0-5]|2[0-4]d|1dd|[1-9]?d))\x7b3\x7d)|:))|(([0-9A-Fa-f]\x7b1,4\x7d:)\x7b4\x7d(((:[0-9A-Fa-f]\x7b1,4\x7d)\x7b1,3\x7d)|((:[0-9A-Fa-f]\x7b1,4\x7d)?:((25[0-5]|2[0-4]d|1dd|[1-9]?d)(.(25[0-5]|2[0-4]d|1dd|[1-9]?d))\x7b3\x7d))|:))|(([0-9A-Fa-f]\x7b1,4\x7d:)\x7b3\x7d(((:[0-9A-Fa-f]\x7b1,4\x7d)\x7b1,4\x7d)|((:[0-9A-Fa-f]\x7b1,4\x7d)\x7b0,2\x7d:((25[0-5]|2[0-4]d|1dd|[1-9]?d)(.(25[0-5]|2[0-4]d|1dd|[1-9]?d))\x7b3\x7d))|:))|(([0-9A-Fa-f]\x7b1,4\x7d:)\x7b2\x7d(((:[0-9A-Fa-f]\x7b1,4\x7d)\x7b1,5\x7d)|((:[0-9A-Fa-f]\x7b1,4\x7d)\x7b0,3\x7d:((25[0-5]|2[0-4]d|1dd|[1-9]?d)(.(25[0-5]|2[0-4]d|1dd|[1-9]?d))\x7b3\x7d))|:))|(([0-9A-Fa-f]\x7b1,4\x7d:)\x7b1\x7d(((:[0-9A-Fa-f]\x7b1,4\x7d)\x7b1,6\x7d)|((:[0-9A-Fa-f]\x7b1,4\x7d)\x7b0,4\x7d:((25[0-5]|2[0-4]d|1dd|[1-9]?d)(.(25[0-5]|2[0-4]d|1dd|[1-9]?d))\x7b3\x7d))|:))|(:(((:[0-9A-Fa-f]\x7b1,4\x7d)\x7b1,7\x7d)|((:[0-9A-Fa-f]\x7b1,4\x7d)\x7b0,5\x7d:((25[0-5]|2[0-4]d|1dd|[1-9]?d)(.(25[0-5]|2[0-4]d|1dd|[1-9]?d))\x7b3\x7d))|:)))(%.+)?s*(\\/([0-9]|[1-9][0-9]|1[0-1][0-9]|12[0-8]))?$")]),
  ("IPCIDR", .obj [
      ("oneOf", .arr [
        .obj [
          ("$ref", .str "#/pScheduler/IPv4CIDR")],
        .obj [
          ("$ref", .str "#/pScheduler/IPv6CIDR")]])]),
  ("Int8", .obj [
      ("type", .str "integer"),
      ("minimum", .int (-128)),
      ("maximum", .int 127)]),
  ("UInt8", .obj [
      ("type", .str "integer"),
      ("minimum", .int 0),
      ("maximum", .int 255)]),
  ("Int16", .obj [
      ("type", .str "integer"),
      ("minimum", .int (-32768)),
      ("maximum", .int 32767)]),
  ("UInt16", .obj [
      ("type", .str "integer"),
      ("minimum", .int 0),
      ("maximum", .int 65535)]),
  ("Int32", .obj [
      ("type", .str "integer"),
      ("minimum", .int (-2147483648)),
      ("maximum", .int 2147483647)]),
  ("UInt32", .obj [
      ("type", .str "integer"),
      ("minimum", .int 0),
      ("maximum", .int 4294967295)]),
  ("Int64", .obj [
      ("type", .str "integer"),
      ("minimum", .int (-9223372036854775808)),
      ("maximum", .int 9223372036854775807)]),
  ("UInt64", .obj UInt64_def),
  ("IPPort", .obj [
      ("type", .str "integer"),
      ("minimum", .int 0),
      ("maximum", .int 65535)]),
  ("IPPortRange", .obj [
      ("type", .str "object"),
      ("properties", .obj [
        ("lower", .obj [
          ("$ref", .str "#/pScheduler/IPPort")]),
        ("upper", .obj [
          ("$ref", .str "#/pScheduler/IPPort")])]),
      ("additionalProperties", .bool false),
      ("required", .arr [
        .str "lower",
        .str "upper"])]),
  ("IPTOS", .obj [
      ("type", .str "integer"),
      ("minimum", .int 0),
      ("maximum", .int 255)]),
  ("JQTransformSpecification", .obj [
      ("type", .str "object"),
      ("properties", .obj [
        ("script", .obj [
          ("$ref", .str "#/pScheduler/String")]),
        ("output-raw", .obj [
          ("$ref", .str "#/pScheduler/Boolean")])]),
      ("additionalProperties", .bool false),
      ("required", .arr [
        .str "script"])]),
  ("Number", .obj [
      ("type", .str "number")]),
  ("Numeric", .obj [
      ("anyOf", .arr [
        .obj [
          ("$ref", .str "#/pScheduler/Number")],
        .obj [
          ("$ref", .str "#/pScheduler/SINumber")]])]),
  ("NumericRange", .obj [
      ("type", .str "object"),
      ("properties", .obj [
        ("lower", .obj [
          ("$ref", .str "#/pScheduler/Numeric")]),
        ("upper", .obj [
          ("$ref", .str "#/pScheduler/Numeric")])]),
      ("additionalProperties", .bool false),
      ("required", .arr [
        .str "lower",
        .str "upper"])]),
  ("Probability", .obj [
      ("type", .str "number"),
      ("minimum", .num 0),
      ("maximum", .num 1)]),
  ("ProbabilityRange", .obj [
      ("type", .str "object"),
      ("properties", .obj [
        ("lower", .obj [
          ("$ref", .str "#/pScheduler/Probability")]),
        ("upper", .obj [
          ("$ref", .str "#/pScheduler/Probability")])]),
      ("additionalProperties", .bool false),
      ("required", .arr [
        .str "lower",
        .str "upper"])]),
  ("RetryPolicy", .obj [
      ("type", .str "array"),
      ("items", .obj [
        ("$ref", .str "#/pScheduler/RetryPolicyEntry")])]),
  ("RetryPolicyEntry", .obj [
      ("type", .str "object"),
      ("properties", .obj [
        ("attempts", .obj [
          ("$ref", .str "#/pScheduler/Cardinal")]),
        ("wait", .obj [
          ("$ref", .str "#/pScheduler/Duration")])]),
      ("additionalProperties", .bool false),
      ("required", .arr [
        .str "attempts",
        .str "wait"])]),
  ("SINumber", .obj [
      ("oneOf", .arr [
        .obj [
          ("type", .str "string"),
          ("pattern", .str "^[0-9]+(\\.[0-9]+)?(\\s*[KkMmGgTtPpEeZzYy][Ii]?)?$")],
        .obj [
          ("type", .str "integer")]])]),
  ("SINumberRange", .obj [
      ("type", .str "object"),
      ("properties", .obj [
        ("lower", .obj [
          ("$ref", .str "#/pScheduler/SINumber")]),
        ("upper", .obj [
          ("$ref", .str "#/pScheduler/SINumber")])]),
      ("additionalProperties", .bool false),
      ("required", .arr [
        .str "lower",
        .str "upper"])]),
  ("String", .obj [
      ("type", .str "string")]),
  ("StringList", .obj [
      ("type", .str "array"),
      ("items", .obj [
        ("$ref", .str "#/pScheduler/String")])]),
  ("StringMatch", .obj [
      ("type", .str "object"),
      ("properties", .obj [
        ("style", .obj [
          ("type", .str "string"),
          ("enum", .arr [
            .str "exact",
            .str "contains",
            .str "regex"])]),
        ("match", .obj [
          ("$ref", .str "#/pScheduler/String")]),
        ("case-insensitive", .obj [
          ("$ref", .str "#/pScheduler/Boolean")]),
        ("invert", .obj [
          ("$ref", .str "#/pScheduler/Boolean")])]),
      ("additionalProperties", .bool false),
      ("required", .arr [
        .str "style",
        .str "match"])]),
  ("EnumMatch", .obj [
      ("type", .str "array"),
      ("properties", .obj [
        ("enumeration", .obj [
          ("type", .str "array"),
          ("items", .obj [
            ("anyOf", .arr [
              .obj [
                ("type", .str "string")],
              .obj [
                ("$ref", .str "#/pScheduler/Number")]])])]),
        ("invert", .obj [
          ("$ref", .str "#/pScheduler/Boolean")])]),
      ("additionalProperties", .bool false),
      ("required", .arr [
        .str "enumeration"])]),
  ("Timestamp", .obj [
      ("type", .str "string"),
      ("pattern", .str "^([\\+-]?\\d\x7b4\x7d(?!\\d\x7b2\x7d\\b))((-?)((0[1-9]|1[0-2])(\\3([12]\\d|0[1-9]|3[01]))?|W([0-4]\\d|5[0-2])(-?[1-7])?|(00[1-9]|0[1-9]\\d|[12]\\d\x7b2\x7d|3([0-5]\\d|6[1-6])))([T\\s]((([01]\\d|2[0-3])((:?)[0-5]\\d)?|24\\:?00)([\\.,]\\d+(?!:))?)?(\\17[0-5]\\d([\\.,]\\d+)?)?([zZ]|([\\+-])([01]\\d|2[0-3]):?([0-5]\\d)?)?)?)?$")]),
  ("TimestampAbsoluteRelative", .obj [
      ("oneOf", .arr [
        .obj [
          ("$ref", .str "#/pScheduler/Timestamp")],
        .obj [
          ("$ref", .str "#/pScheduler/Duration")],
        .obj [
          ("type", .str "string"),
          ("pattern", .str "^@(R\\d*/)?P(?:\\d+(?:\\.\\d+)?Y)?(?:\\d+(?:\\.\\d+)?M)?(?:\\d+(?:\\.\\d+)?W)?(?:\\d+(?:\\.\\d+)?D)?(?:T(?:\\d+(?:\\.\\d+)?H)?(?:\\d+(?:\\.\\d+)?M)?(?:\\d+(?:\\.\\d+)?S)?)?$")]])]),
  ("URL", .obj [
      ("type", .str "string"),
      ("format", .str "uri")]),
  ("UUID", .obj [
      ("type", .str "string"),
      ("pattern", .str "^[0-9A-Fa-f]\x7b8\x7d-[0-9A-Fa-f]\x7b4\x7d-[0-9A-Fa-f]\x7b4\x7d-[0-9A-Fa-f]\x7b4\x7d-[0-9A-Fa-f]\x7b12\x7d$")]),
  ("Version", .obj [
      ("type", .str "string"),
      ("pattern", .str "^[0-9]+(\\.[0-9]+(\\.[0-9]+)?)$")]),
  ("ArchiveSpecification", .obj [
      ("type", .str "object"),
      ("properties", .obj [
        ("archiver", .obj [
          ("type", .str "string")]),
        ("data", .obj [
          ("$ref", .str "#/pScheduler/AnyJSON")]),
        ("transform", .obj [
          ("$ref", .str "#/pScheduler/JQTransformSpecification")]),
        ("ttl", .obj [
          ("$ref", .str "#/pScheduler/Duration")])]),
      ("additionalProperties", .bool false),
      ("required", .arr [
        .str "archiver",
        .str "data"])]),
  ("Maintainer", .obj [
      ("type", .str "object"),
      ("properties", .obj [
        ("name", .obj [
          ("type", .str "string")]),
        ("email", .obj [
          ("$ref", .str "#/pScheduler/Email")]),
        ("href", .obj [
          ("$ref", .str "#/pScheduler/URL")])]),
      ("additionalProperties", .bool false),
      ("required", .arr [
        .str "name"])]),
  ("NameVersion", .obj [
      ("type", .str "object"),
      ("properties", .obj [
        ("name", .obj [
          ("type", .str "string")]),
        ("version", .obj [
          ("$ref", .str "#/pScheduler/Version")])]),
      ("additionalProperties", .bool false),
      ("required", .arr [
        .str "name",
        .str "version"])]),
  ("ParticipantResult", .obj [
      ("type", .str "object"),
      ("properties", .obj [
        ("participant", .obj [
          ("$ref", .str "#/pScheduler/Host")]),
        ("result", .obj [
          ("$ref", .str "#/pScheduler/AnyJSON")])]),
      ("additionalProperties", .bool false),
      ("required", .arr [
        .str "participant",
        .str "result"])]),
  ("RunResult", .obj [
      ("type", .str "object"),
      ("properties", .obj [
        ("id", .obj [
          ("$ref", .str "#/pScheduler/UUID")]),
        ("schedule", .obj [
          ("$ref", .str "#/pScheduler/TimeRange")]),
        ("test", .obj [
          ("$ref", .str "#/pScheduler/TestSpecification")]),
        ("tool", .obj [
          ("$ref", .str "#/pScheduler/NameVersion")]),
        ("participants", .obj [
          ("type", .str "array"),
          ("items", .obj [
            ("$ref", .str "#/pScheduler/ParticipantResult")])]),
        ("result", .obj [
          ("$ref", .str "#/pScheduler/AnyJSON")])]),
      ("additionalProperties", .bool false),
      ("required", .arr [
        .str "id",
        .str "schedule",
        .str "test",
        .str "tool",
        .str "participants",
        .str "result"])]),
  ("ScheduleSpecification", .obj [
      ("type", .str "object"),
      ("properties", .obj [
        ("start", .obj [
          ("$ref", .str "#/pScheduler/TimestampAbsoluteRelative")]),
        ("slip", .obj [
          ("$ref", .str "#/pScheduler/Duration")]),
        ("sliprand", .obj [
          ("$ref", .str "#/pScheduler/Boolean")]),
        ("repeat", .obj [
          ("$ref", .str "#/pScheduler/Duration")]),
        ("until", .obj [
          ("$ref", .str "#/pScheduler/TimestampAbsoluteRelative")]),
        ("max-runs", .obj [
          ("$ref", .str "#/pScheduler/Cardinal")])]),
      ("additionalProperties", .bool false)]),
  ("TaskSpecification", .obj [
      ("type", .str "object"),
      ("properties", .obj [
        ("schema", .obj [
          ("$ref", .str "#/pScheduler/Cardinal")]),
        ("lead-bind", .obj [
          ("$ref", .str "#/pScheduler/Host")]),
        ("test", .obj [
          ("$ref", .str "#/pScheduler/TestSpecification")]),
        ("tool", .obj [
          ("$ref", .str "#/pScheduler/String")]),
        ("tools", .obj [
          ("$ref", .str "#/pScheduler/StringList")]),
        ("schedule", .obj [
          ("$ref", .str "#/pScheduler/ScheduleSpecification")]),
        ("archives", .obj [
          ("type", .str "array"),
          ("items", .obj [
            ("$ref", .str "#/pScheduler/ArchiveSpecification")])]),
        ("reference", .obj [
          ("$ref", .str "#/pScheduler/AnyJSON")]),
        ("_key", .obj [
          ("$ref", .str "#/pScheduler/String")])]),
      ("additionalProperties", .bool false),
      ("required", .arr [
        .str "test"])]),
  ("TestSpecification", .obj [
      ("type", .str "object"),
      ("properties", .obj [
        ("type", .obj [
          ("$ref", .str "#/pScheduler/String")]),
        ("spec", .obj [
          ("$ref", .str "#/pScheduler/AnyJSON")])]),
      ("additionalProperties", .bool false),
      ("required", .arr [
        .str "type",
        .str "spec"])]),
  ("TimeRange", .obj [
      ("type", .str "object"),
      ("properties", .obj [
        ("start", .obj [
          ("$ref", .str "#/pScheduler/Timestamp")]),
        ("end", .obj [
          ("$ref", .str "#/pScheduler/Timestamp")])]),
      ("additionalProperties", .bool false)]),
  ("icmp-error", .obj [
      ("type", .str "string"),
      ("enum", .arr [
        .str "net-unreachable",
        .str "host-unreachable",
        .str "protocol-unreachable",
        .str "port-unreachable",
        .str "fragmentation-needed-and-df-set",
        .str "source-route-failed",
        .str "destination-network-unknown",
        .str "destination-host-unknown",
        .str "source-host-isolated",
        .str "destination-network-administratively-prohibited",
        .str "destination-host-administratively-prohibited",
        .str "network-unreachable-for-type-of-service",
        .str "icmp-destination-host-unreachable-tos",
        .str "communication-administratively-prohibited",
        .str "host-precedence-violation",
        .str "precedence-cutoff-in-effect"])]),
  ("ip-version", .obj [
      ("type", .str "integer"),
      ("enum", .arr [
        .int 4,
        .int 6])]),
  ("ip-version-list", .obj [
      ("type", .str "array"),
      ("items", .obj [
        ("$ref", .str "#/pScheduler/ip-version")])]),
  ("Limit", .obj [
      ("Boolean", .obj [
        ("type", .str "object"),
        ("properties", .obj [
          ("description", .obj [
            ("$ref", .str "#/pScheduler/String")]),
          ("match", .obj [
            ("$ref", .str "#/pScheduler/Boolean")]),
          ("fail-message", .obj [
            ("$ref", .str "#/pScheduler/String")])]),
        ("additionalProperties", .bool false),
        ("required", .arr [
          .str "match"])]),
      ("Cardinal", .obj [
        ("type", .str "object"),
        ("properties", .obj [
          ("description", .obj [
            ("$ref", .str "#/pScheduler/String")]),
          ("range", .obj [
            ("$ref", .str "#/pScheduler/CardinalRange")]),
          ("invert", .obj [
            ("$ref", .str "#/pScheduler/Boolean")])]),
        ("additionalProperties", .bool false),
        ("required", .arr [
          .str "range"])]),
      ("CardinalList", .obj [
        ("type", .str "object"),
        ("properties", .obj [
          ("description", .obj [
            ("$ref", .str "#/pScheduler/String")]),
          ("match", .obj [
            ("$ref", .str "#/pScheduler/CardinalList")]),
          ("invert", .obj [
            ("$ref", .str "#/pScheduler/Boolean")])]),
        ("additionalProperties", .bool false),
        ("required", .arr [
          .str "match"])]),
      ("CardinalZero", .obj [
        ("type", .str "object"),
        ("properties", .obj [
          ("description", .obj [
            ("$ref", .str "#/pScheduler/String")]),
          ("range", .obj [
            ("$ref", .str "#/pScheduler/CardinalZeroRange")]),
          ("invert", .obj [
            ("$ref", .str "#/pScheduler/Boolean")])]),
        ("additionalProperties", .bool false),
        ("required", .arr [
          .str "range"])]),
      ("CardinalZeroList", .obj [
        ("type", .str "object"),
        ("properties", .obj [
          ("description", .obj [
            ("$ref", .str "#/pScheduler/String")]),
          ("match", .obj [
            ("$ref", .str "#/pScheduler/CardinalZeroList")]),
          ("invert", .obj [
            ("$ref", .str "#/pScheduler/Boolean")])]),
        ("additionalProperties", .bool false),
        ("required", .arr [
          .str "match"])]),
      ("Duration", .obj [
        ("type", .str "object"),
        ("properties", .obj [
          ("description", .obj [
            ("$ref", .str "#/pScheduler/String")]),
          ("range", .obj [
            ("$ref", .str "#/pScheduler/DurationRange")]),
          ("invert", .obj [
            ("$ref", .str "#/pScheduler/Boolean")])]),
        ("additionalProperties", .bool false),
        ("required", .arr [
          .str "range"])]),
      ("SINumber", .obj [
        ("properties", .obj [
          ("description", .obj [
            ("$ref", .str "#/pScheduler/String")]),
          ("range", .obj [
            ("$ref", .str "#/pScheduler/SINumberRange")]),
          ("invert", .obj [
            ("$ref", .str "#/pScheduler/Boolean")])]),
        ("additionalProperties", .bool false),
        ("required", .arr [
          .str "range"])]),
      ("IPVersion", .obj [
        ("properties", .obj [
          ("description", .obj [
            ("$ref", .str "#/pScheduler/String")]),
          ("match", .obj [
            ("$ref", .str "#/pScheduler/ip-version")]),
          ("invert", .obj [
            ("$ref", .str "#/pScheduler/Boolean")])]),
        ("additionalProperties", .bool false),
        ("required", .arr [
          .str "version"])]),
      ("IPVersionList", .obj [
        ("properties", .obj [
          ("description", .obj [
            ("$ref", .str "#/pScheduler/String")]),
          ("enumeration", .obj [
            ("$ref", .str "#/pScheduler/ip-version-list")]),
          ("invert", .obj [
            ("$ref", .str "#/pScheduler/Boolean")])]),
        ("additionalProperties", .bool false),
        ("required", .arr [
          .str "enumeration"])]),
      ("Probability", .obj [
        ("properties", .obj [
          ("description", .obj [
            ("$ref", .str "#/pScheduler/String")]),
          ("range", .obj [
            ("$ref", .str "#/pScheduler/ProbabilityRange")]),
          ("invert", .obj [
            ("$ref", .str "#/pScheduler/Boolean")])]),
        ("additionalProperties", .bool false),
        ("required", .arr [
          .str "range"])]),
      ("String", .obj [
        ("type", .str "object"),
        ("properties", .obj [
          ("description", .obj [
            ("$ref", .str "#/pScheduler/String")]),
          ("match", .obj [
            ("$ref", .str "#/pScheduler/StringMatch")]),
          ("fail-message", .obj [
            ("$ref", .str "#/pScheduler/String")])]),
        ("additionalProperties", .bool false),
        ("required", .arr [
          .str "match"])])])
]

/-- The fixed envelope schema `__default_schema__` (jsonval.py lines 725-736):
top-level type object, unknown top-level fields rejected, the type
dictionary attached under the `pScheduler` key. -/
def __default_schema__ : PyDict := [
  ("$schema", .str "http://json-schema.org/draft-04/schema#"),
  ("id", .str "http://perfsonar.net/pScheduler/json_generic.json"),
  ("title", .str "pScheduler Generic Validation Schema"),
  ("type", .str "object"),
  ("additionalProperties", .bool false),
  ("pScheduler", .obj __dictionary__)]

/-- The list iterated over by the composition loop (jsonval.py lines
785-786): the six recognized top-level skeleton keys. -/
def recognized_elements : List String :=
  ["type", "items", "properties", "additionalProperties", "required", "local"]

/-- Embeds `copy.copy(__default_schema__)` (jsonval.py line 783): a shallow copy.
As a value the copy's top level equals the original's; the subsequent
assignments (`schema[element] = ...`) rebind slots of this fresh top level
only, so sharing of the inner values is unobservable. -/
def copy_copy (d : PyDict) : PyDict := d

/-- One iteration of the composition loop (jsonval.py lines 785-788):
`if element in skeleton: schema[element] = skeleton[element]`. -/
def applyElement (skeleton schema : PyDict) (element : String) : PyDict :=
  match lookupKey skeleton element with
  | some v => setKey schema element v
  | none => schema

/-- The schema composition of jsonval.py lines 783-788, starting from an
arbitrary current value `world` of `__default_schema__`. -/
def buildSchemaFrom (world skeleton : PyDict) : PyDict :=
  recognized_elements.foldl (applyElement skeleton) (copy_copy world)

/-- The composed schema built by `json_validate` from the module-level
`__default_schema__`. -/
def buildSchema (skeleton : PyDict) : PyDict :=
  buildSchemaFrom __default_schema__ skeleton

/-- One segment of `ex.absolute_path`: a property name or an array index. -/
inductive PathSeg where
  | name (s : String)
  | idx (n : Nat)

/-- Python `str(x)` on a path segment. -/
def pathStr : PathSeg → String
  | PathSeg.name s => s
  | PathSeg.idx n => toString n

/-- Embeds `"/".join([str(x) for x in ex.absolute_path])` (jsonval.py line 807). -/
def joinPath (p : List PathSeg) : String :=
  String.intercalate "/" (p.map pathStr)

/-- Python exceptions that can escape `json_validate`:
`ValueError` from the input checks, `SchemaError` from
`Draft4Validator.check_schema`, `TypeError` from `str.replace` applied to a
non-string replacement, and `AttributeError` from `.replace` on a non-string
template value. -/
inductive PyErr where
  | valueError (msg : String)
  | schemaError (msg : String)
  | typeError
  | attributeError
deriving DecidableEq

/-- The data of a `jsonschema.exceptions.ValidationError` that
`json_validate` consumes: `ex.schema` (the subschema that rejected the
value), `ex.instance` (the offending value, field `instVal` since
`instance` is reserved), `ex.message` (the library's default message) and
`ex.absolute_path`. -/
structure ValidationFailure where
  schema : PyDict
  instVal : JValue
  message : String
  absolutePath : List PathSeg

/-- Replacement loop for `py_replace`, structurally recursive on a fuel
argument so that it evaluates inside the kernel.  With `fuel ≥ s.length`
and a non-empty pattern it performs Python's leftmost, non-overlapping
scan: where the pattern prefixes the remaining text, emit the replacement
and skip the pattern's length, otherwise keep one character and continue. -/
def replaceAux (fuel : Nat) (s old new : List Char) : List Char :=
  match fuel, s with
  | 0, s => s
  | _ + 1, [] => []
  | fuel + 1, c :: rest =>
    if old.isPrefixOf (c :: rest) then
      new ++ replaceAux fuel ((c :: rest).drop old.length) old new
    else
      c :: replaceAux fuel rest old new

/-- Python `s.replace(old, new)` for a non-empty `old` (the source always
uses the two-character pattern `"%s"`): every occurrence is replaced,
scanning left to right without overlap. -/
def py_replace (s old new : String) : String :=
  String.mk (replaceAux s.data.length s.data old.data new.data)

/-- The message computation of jsonval.py lines 801-804:
`ex.schema["x-invalid-message"].replace("%s", ex.instance)` with only
`KeyError` caught (falling back to `ex.message`).  Python raises
`TypeError` when the replacement `ex.instance` is not a string, and
`AttributeError` when the template value has no `.replace`; neither is
caught. -/
def mkMessage (ex : ValidationFailure) : Except PyErr String :=
  match lookupKey ex.schema "x-invalid-message" with
  | none => Except.ok ex.message
  | some (JValue.str t) =>
    match ex.instVal with
    | JValue.str s => Except.ok (py_replace t "%s" s)
    | _ => Except.error PyErr.typeError
  | some _ => Except.error PyErr.attributeError

/-- The function `json_validate` (jsonval.py lines 741-812), with the current value of
the module-level `__default_schema__` passed in as `world` and returned
alongside the result: the function reads it, shallow-copies it, assigns
only into the copy's own top level, and never writes to the module level,
so every branch returns `world` unchanged.  The two external `jsonschema`
calls are the collaborator parameters `check_schema` (`some msg` models a
raised `SchemaError`) and `validate` (`some ex` models the first
`ValidationError`, `none` a clean pass). -/
def json_validate_world (world : PyDict) (json skeleton : JValue)
    (check_schema : PyDict → Option String)
    (validate : PyDict → JValue → Option ValidationFailure) :
    Except PyErr (Bool × String) × PyDict :=
  match json with
  | JValue.obj _ =>
    match skeleton with
    | JValue.obj skel =>
      let schema := buildSchemaFrom world skel
      match check_schema schema with
      | some msg => (Except.error (PyErr.schemaError msg), world)
      | none =>
        match validate schema json with
        | none => (Except.ok (true, "OK"), world)
        | some ex =>
          match mkMessage ex with
          | Except.error e => (Except.error e, world)
          | Except.ok message =>
            if ex.absolutePath.length > 0 then
              (Except.ok (false, "At /" ++ joinPath ex.absolutePath ++ ": " ++ message), world)
            else
              (Except.ok (false, message), world)
    | _ => (Except.error (PyErr.valueError "Skeleton provided must be a dictionary."), world)
  | _ => (Except.error (PyErr.valueError "JSON provided must be a dictionary."), world)

/-- The function `json_validate` as called by clients, reading the module-level
`__default_schema__`. -/
def json_validate (json skeleton : JValue)
    (check_schema : PyDict → Option String)
    (validate : PyDict → JValue → Option ValidationFailure) :
    Except PyErr (Bool × String) :=
  (json_validate_world __default_schema__ json skeleton check_schema validate).1

/-- Modelled from the spec: the draft-04 numeric range checks of section 4.3
("numeric range checks"), as performed by the external jsonschema library
(which is out of scope of this repository) when an integer instance is
checked against a dictionary entry with inclusive `minimum` / `maximum`
bounds and no `exclusiveMinimum` / `exclusiveMaximum` flags. -/
def int_schema_accepts (schema : PyDict) (n : Int) : Bool :=
  (match lookupKey schema "minimum" with
   | some (JValue.int m) => decide (m ≤ n)
   | _ => true)
  &&
  (match lookupKey schema "maximum" with
   | some (JValue.int m) => decide (n ≤ m)
   | _ => true)

/-- A `check_schema` collaborator that raises nothing: the behaviour of
`Draft4Validator.check_schema` on a structurally valid composed schema. -/
def accept_all_check : PyDict → Option String := fun _ => none

/-- A `validate` collaborator that reports no failure: the behaviour of
`jsonschema.validate` on an instance satisfying the composed schema. -/
def accept_all_validator : PyDict → JValue → Option ValidationFailure := fun _ _ => none

/-- A `validate` collaborator that reports the given failure: the behaviour
of `jsonschema.validate` when its first (and only reported) failure is
`ex`. -/
def vld_of (ex : ValidationFailure) : PyDict → JValue → Option ValidationFailure :=
  fun _ _ => some ex

/-- Did the call return a `(valid, message)` pair (as opposed to raising)? -/
def exceptIsOk : Except PyErr (Bool × String) → Bool
  | Except.ok _ => true
  | Except.error _ => false

/-- A concrete skeleton with one recognized key and one junk key. -/
def skel_c5 : PyDict := [("type", JValue.str "object"), ("junk", JValue.int 7)]

/-- A concrete skeleton carrying the unrecognized top-level key `bogus`. -/
def skel_bogus : PyDict := [("type", JValue.str "object"), ("bogus", JValue.int 1)]

/-- The skeleton `skel_bogus` with the unrecognized key removed. -/
def skel_type_only : PyDict := [("type", JValue.str "object")]

/-- A concrete skeleton declaring a `howlong` field of the dictionary's
`Duration` type (as in the module's own test program). -/
def skel_howlong : PyDict :=
  [("type", JValue.str "object"),
   ("properties", JValue.obj [("howlong", JValue.obj [("$ref", JValue.str "#/pScheduler/Duration")])])]

/-- The `ValidationError` produced by jsonschema when the instance value 42
is checked against the `Duration` subschema (a type-mismatch failure):
`ex.schema` is the whole rejecting `Duration` entry, with its
`x-invalid-message` template, and `ex.instance` is the non-string 42. -/
def ex_duration_int : ValidationFailure :=
  { schema := Duration_def,
    instVal := JValue.int 42,
    message := "42 is not of type \x27string\x27",
    absolutePath := [PathSeg.name "howlong"] }

/-- As `ex_duration_int`, but the offending value is an (empty) object. -/
def ex_duration_obj : ValidationFailure :=
  { schema := Duration_def,
    instVal := JValue.obj [],
    message := "\x7b\x7d is not of type \x27string\x27",
    absolutePath := [PathSeg.name "howlong"] }

/-- A failure whose rejecting subschema carries an `x-invalid-message`
template containing no `%s` placeholder. -/
def ex_no_placeholder : ValidationFailure :=
  { schema := [("x-invalid-message", JValue.str "not a valid duration.")],
    instVal := JValue.str "PT10Mxx",
    message := "\x27PT10Mxx\x27 does not match the pattern",
    absolutePath := [] }

/-- A failure whose rejecting subschema carries the template
`'%s' is not valid.` and whose offending value is the string `PT10Mxx`. -/
def ex_pt10 : ValidationFailure :=
  { schema := [("x-invalid-message", JValue.str "\x27%s\x27 is not valid.")],
    instVal := JValue.str "PT10Mxx",
    message := "\x27PT10Mxx\x27 does not match the pattern",
    absolutePath := [] }

/-- A failure with no custom template, located at instance path a.b[2]. -/
def ex_path_ab2 : ValidationFailure :=
  { schema := [],
    instVal := JValue.str "oops",
    message := "\x27oops\x27 is too long",
    absolutePath := [PathSeg.name "a", PathSeg.name "b", PathSeg.idx 2] }

theorem lookupKey_setKey_self (l : PyDict) (k : String) (v : JValue) :
    lookupKey (setKey l k v) k = some v := by
  induction l with
  | nil => simp [setKey, lookupKey]
  | cons hd tl ih =>
    obtain ⟨k', v'⟩ := hd
    by_cases h : k' = k
    · simp [setKey, h, lookupKey]
    · simp [setKey, h, lookupKey, ih]

theorem lookupKey_setKey_ne (l : PyDict) (k : String) (v : JValue) (k' : String)
    (h : k' ≠ k) : lookupKey (setKey l k v) k' = lookupKey l k' := by
  induction l with
  | nil => simp [setKey, lookupKey, Ne.symm h]
  | cons hd tl ih =>
    obtain ⟨k0, v0⟩ := hd
    by_cases h0 : k0 = k
    · subst h0
      simp [setKey, lookupKey, Ne.symm h]
    · simp only [setKey, if_neg h0, lookupKey]
      by_cases h1 : k0 = k'
      · simp [h1]
      · simp [h1, ih]

theorem applyElement_lookup_eq (skeleton schema : PyDict) (e : String) :
    lookupKey (applyElement skeleton schema e) e =
      (lookupKey skeleton e).elim (lookupKey schema e) some := by
  unfold applyElement
  cases h : lookupKey skeleton e with
  | none => simp [Option.elim]
  | some v => simp [Option.elim, lookupKey_setKey_self]

theorem applyElement_lookup_ne (skeleton schema : PyDict) (e k : String)
    (h : k ≠ e) :
    lookupKey (applyElement skeleton schema e) k = lookupKey schema k := by
  unfold applyElement
  cases lookupKey skeleton e with
  | none => rfl
  | some v => exact lookupKey_setKey_ne _ _ _ _ h

theorem buildSchemaFrom_unfold (world skeleton : PyDict) :
    buildSchemaFrom world skeleton =
      applyElement skeleton (applyElement skeleton (applyElement skeleton
        (applyElement skeleton (applyElement skeleton (applyElement skeleton
          world "type") "items") "properties") "additionalProperties")
            "required") "local" := rfl

/-- Composed-schema lookup at a key that is not one of the six recognized
elements: the envelope's binding is untouched. -/
theorem lookupKey_buildSchemaFrom_not_recognized (world skeleton : PyDict)
    (k : String) (h : k ∉ recognized_elements) :
    lookupKey (buildSchemaFrom world skeleton) k = lookupKey world k := by
  simp only [recognized_elements, List.mem_cons, List.not_mem_nil, or_false] at h
  push_neg at h
  obtain ⟨h1, h2, h3, h4, h5, h6⟩ := h
  rw [buildSchemaFrom_unfold,
    applyElement_lookup_ne _ _ _ _ h6,
    applyElement_lookup_ne _ _ _ _ h5,
    applyElement_lookup_ne _ _ _ _ h4,
    applyElement_lookup_ne _ _ _ _ h3,
    applyElement_lookup_ne _ _ _ _ h2,
    applyElement_lookup_ne _ _ _ _ h1]

/-- Composed-schema lookup at a recognized element: the skeleton's binding
when the skeleton has one, the envelope's otherwise. -/
theorem lookupKey_buildSchemaFrom_recognized (world skeleton : PyDict)
    (k : String) (h : k ∈ recognized_elements) :
    lookupKey (buildSchemaFrom world skeleton) k =
      (lookupKey skeleton k).elim (lookupKey world k) some := by
  rw [buildSchemaFrom_unfold]
  simp only [recognized_elements, List.mem_cons, List.not_mem_nil, or_false] at h
  rcases h with h | h | h | h | h | h <;> subst h
  · rw [applyElement_lookup_ne _ _ _ _ (by decide),
      applyElement_lookup_ne _ _ _ _ (by decide),
      applyElement_lookup_ne _ _ _ _ (by decide),
      applyElement_lookup_ne _ _ _ _ (by decide),
      applyElement_lookup_ne _ _ _ _ (by decide),
      applyElement_lookup_eq]
  · rw [applyElement_lookup_ne _ _ _ _ (by decide),
      applyElement_lookup_ne _ _ _ _ (by decide),
      applyElement_lookup_ne _ _ _ _ (by decide),
      applyElement_lookup_ne _ _ _ _ (by decide),
      applyElement_lookup_eq,
      applyElement_lookup_ne _ _ _ _ (by decide)]
  · rw [applyElement_lookup_ne _ _ _ _ (by decide),
      applyElement_lookup_ne _ _ _ _ (by decide),
      applyElement_lookup_ne _ _ _ _ (by decide),
      applyElement_lookup_eq,
      applyElement_lookup_ne _ _ _ _ (by decide),
      applyElement_lookup_ne _ _ _ _ (by decide)]
  · rw [applyElement_lookup_ne _ _ _ _ (by decide),
      applyElement_lookup_ne _ _ _ _ (by decide),
      applyElement_lookup_eq,
      applyElement_lookup_ne _ _ _ _ (by decide),
      applyElement_lookup_ne _ _ _ _ (by decide),
      applyElement_lookup_ne _ _ _ _ (by decide)]
  · rw [applyElement_lookup_ne _ _ _ _ (by decide),
      applyElement_lookup_eq,
      applyElement_lookup_ne _ _ _ _ (by decide),
      applyElement_lookup_ne _ _ _ _ (by decide),
      applyElement_lookup_ne _ _ _ _ (by decide),
      applyElement_lookup_ne _ _ _ _ (by decide)]
  · rw [applyElement_lookup_eq]
    rw [applyElement_lookup_ne _ _ _ _ (by decide),
      applyElement_lookup_ne _ _ _ _ (by decide),
      applyElement_lookup_ne _ _ _ _ (by decide),
      applyElement_lookup_ne _ _ _ _ (by decide),
      applyElement_lookup_ne _ _ _ _ (by decide)]

theorem buildSchemaFrom_default (sl : PyDict) :
    buildSchemaFrom __default_schema__ sl = buildSchema sl := rfl

/-- Unfolding of `json_validate` on record inputs: the schema check, the
validation call, the message computation and the path formatting, in
source order. -/
theorem json_validate_obj (jl sl : PyDict) (chk : PyDict → Option String)
    (vld : PyDict → JValue → Option ValidationFailure) :
    json_validate (JValue.obj jl) (JValue.obj sl) chk vld =
      match chk (buildSchema sl) with
      | some msg => Except.error (PyErr.schemaError msg)
      | none =>
        match vld (buildSchema sl) (JValue.obj jl) with
        | none => Except.ok (true, "OK")
        | some ex =>
          match mkMessage ex with
          | Except.error e => Except.error e
          | Except.ok message =>
            if ex.absolutePath.length > 0 then
              Except.ok (false, "At /" ++ joinPath ex.absolutePath ++ ": " ++ message)
            else
              Except.ok (false, message) := by
  cases hc : chk (buildSchema sl) with
  | some msg => simp [json_validate, json_validate_world, buildSchemaFrom_default, hc]
  | none =>
    cases hv : vld (buildSchema sl) (JValue.obj jl) with
    | none => simp [json_validate, json_validate_world, buildSchemaFrom_default, hc, hv]
    | some ex =>
      cases hm : mkMessage ex with
      | error e => simp [json_validate, json_validate_world, buildSchemaFrom_default, hc, hv, hm]
      | ok message =>
        by_cases hp : ex.absolutePath.length > 0
        · simp [json_validate, json_validate_world, buildSchemaFrom_default, hc, hv, hm, hp]
        · simp [json_validate, json_validate_world, buildSchemaFrom_default, hc, hv, hm, hp]

/-- Claim C5: the composed schema equals the fixed envelope with exactly
those of the six recognized keys present in the skeleton overwritten by the
skeleton's values (field schemas passed through untouched, so `local`
definitions land under the `local` key), every other envelope binding
unchanged, and the dictionary attached under the `pScheduler` namespace
unconditionally. -/
theorem composed_schema_layering (skel : PyDict) :
    (∀ k, k ∈ recognized_elements →
      lookupKey (buildSchema skel) k
        = (lookupKey skel k).elim (lookupKey __default_schema__ k) some)
  ∧ (∀ k, k ∉ recognized_elements →
      lookupKey (buildSchema skel) k = lookupKey __default_schema__ k)
  ∧ lookupKey (buildSchema skel) "pScheduler" = some (JValue.obj __dictionary__) := by
  refine ⟨?_, ?_, ?_⟩
  · intro k hk
    exact lookupKey_buildSchemaFrom_recognized __default_schema__ skel k hk
  · intro k hk
    exact lookupKey_buildSchemaFrom_not_recognized __default_schema__ skel k hk
  · rw [show buildSchema skel = buildSchemaFrom __default_schema__ skel from rfl,
      lookupKey_buildSchemaFrom_not_recognized __default_schema__ skel "pScheduler" (by decide)]
    rfl

/-- Witness for composed_schema_layering at the concrete skeleton
`skel_c5`: the recognized key is copied, the junk key is not, and the
dictionary is attached. -/
theorem composed_schema_layering_witness :
    lookupKey (buildSchema skel_c5) "type" = some (JValue.str "object")
  ∧ lookupKey (buildSchema skel_c5) "junk" = none
  ∧ lookupKey (buildSchema skel_c5) "pScheduler" = some (JValue.obj __dictionary__) := by
  refine ⟨?_, ?_, (composed_schema_layering skel_c5).2.2⟩
  · rw [(composed_schema_layering skel_c5).1 "type" (by decide)]
    rfl
  · rw [(composed_schema_layering skel_c5).2.1 "junk" (by decide)]
    rfl

/-- Claim C4 counterexample: a skeleton carrying the unrecognized top-level
key `bogus` does not make `json_validate` raise a hard error; the key is
silently dropped from the composed schema and instance validation proceeds
to a normal result.  `accept_all_check` is the real behaviour of
`Draft4Validator.check_schema` here, since the composed schema (the
envelope plus `type: object`) is structurally valid, and
`accept_all_validator` reflects that the empty record satisfies it. -/
theorem unrecognized_key_raises_cex :
    json_validate (JValue.obj []) (JValue.obj skel_bogus)
        accept_all_check accept_all_validator = Except.ok (true, "OK")
  ∧ lookupKey (buildSchema skel_bogus) "bogus" = none := ⟨rfl, rfl⟩

/-- Claim C4 (amended): a skeleton top-level key outside the six recognized
ones is silently ignored, not rejected: the composed schema's binding at
that key is the envelope's own, and the entire result of `json_validate`
depends on the skeleton only through the composed schema, so no error is
raised on the key's account. -/
theorem unrecognized_key_silently_ignored (sl : PyDict) (k : String)
    (hk : k ∉ recognized_elements) (json : JValue)
    (chk : PyDict → Option String) (vld : PyDict → JValue → Option ValidationFailure)
    (sl2 : PyDict) (hsl2 : buildSchema sl2 = buildSchema sl) :
    lookupKey (buildSchema sl) k = lookupKey __default_schema__ k
  ∧ json_validate json (JValue.obj sl2) chk vld
      = json_validate json (JValue.obj sl) chk vld := by
  constructor
  · exact lookupKey_buildSchemaFrom_not_recognized __default_schema__ sl k hk
  · cases json with
    | obj jl =>
      simp only [json_validate, json_validate_world]
      rw [show buildSchemaFrom __default_schema__ sl2 = buildSchemaFrom __default_schema__ sl
        from hsl2]
    | null => rfl
    | bool b => rfl
    | int n => rfl
    | num q => rfl
    | str s => rfl
    | arr xs => rfl

/-- Witness for unrecognized_key_silently_ignored at `skel_bogus`: dropping
the `bogus` key changes nothing. -/
theorem unrecognized_key_silently_ignored_witness :
    lookupKey (buildSchema skel_bogus) "bogus" = none
  ∧ json_validate (JValue.obj []) (JValue.obj skel_type_only)
        accept_all_check accept_all_validator
      = json_validate (JValue.obj []) (JValue.obj skel_bogus)
        accept_all_check accept_all_validator := by
  have h := unrecognized_key_silently_ignored skel_bogus "bogus" (by decide)
    (JValue.obj []) accept_all_check accept_all_validator skel_type_only rfl
  exact ⟨h.1.trans rfl, h.2⟩

/-- Claim C6: a non-record instance, or a record instance with a non-record
skeleton, makes `json_validate` raise `ValueError` (jsonval.py lines
772-776) rather than return a validity result. -/
theorem nondict_inputs_raise (json skeleton : JValue)
    (chk : PyDict → Option String) (vld : PyDict → JValue → Option ValidationFailure) :
    ((∀ l, json ≠ JValue.obj l) →
      json_validate json skeleton chk vld
        = Except.error (PyErr.valueError "JSON provided must be a dictionary."))
  ∧ (∀ jl, json = JValue.obj jl → (∀ l, skeleton ≠ JValue.obj l) →
      json_validate json skeleton chk vld
        = Except.error (PyErr.valueError "Skeleton provided must be a dictionary.")) := by
  constructor
  · intro h
    cases json with
    | obj l => exact absurd rfl (h l)
    | null => rfl
    | bool b => rfl
    | int n => rfl
    | num q => rfl
    | str s => rfl
    | arr xs => rfl
  · rintro jl rfl h
    cases skeleton with
    | obj l => exact absurd rfl (h l)
    | null => rfl
    | bool b => rfl
    | int n => rfl
    | num q => rfl
    | str s => rfl
    | arr xs => rfl

/-- Witness for nondict_inputs_raise: an integer instance raises the first
ValueError; a string skeleton raises the second. -/
theorem nondict_inputs_raise_witness :
    json_validate (JValue.int 3) (JValue.obj []) accept_all_check accept_all_validator
      = Except.error (PyErr.valueError "JSON provided must be a dictionary.")
  ∧ json_validate (JValue.obj []) (JValue.str "x") accept_all_check accept_all_validator
      = Except.error (PyErr.valueError "Skeleton provided must be a dictionary.") :=
  ⟨(nondict_inputs_raise (JValue.int 3) (JValue.obj [])
      accept_all_check accept_all_validator).1 (fun _ h => JValue.noConfusion h),
   (nondict_inputs_raise (JValue.obj []) (JValue.str "x")
      accept_all_check accept_all_validator).2 [] rfl (fun _ h => JValue.noConfusion h)⟩

/-- Claim C1 counterexample: the instance \x7b"howlong": 42\x7d against a
skeleton declaring `howlong` as the dictionary's Duration type.  The
external validator's first failure rejects the non-string 42 with the
Duration subschema (which carries an `x-invalid-message` template) as
`ex.schema`, exactly as `vld_of ex_duration_int` supplies it; the
uncaught `TypeError` from `str.replace` then escapes `json_validate`, so
this validation failure does not produce a `(False, message)` return. -/
theorem json_validate_outcome_cex :
    json_validate (JValue.obj [("howlong", JValue.int 42)]) (JValue.obj skel_howlong)
      accept_all_check (vld_of ex_duration_int) = Except.error PyErr.typeError := rfl

/-- Claim C1 (amended): with a composed schema passing the self-check,
`json_validate` returns exactly `(True, "OK")` when the instance satisfies
the composed schema; on the first validation failure it returns `(False,
message)` whenever the message computation succeeds, and never returns any
success value other than the literal "OK"; when the failure's template
substitution raises `TypeError` (non-string offending value under an
`x-invalid-message` template) the error propagates instead of a `(False,
message)` return. -/
theorem json_validate_outcome (jl sl : PyDict) (chk : PyDict → Option String)
    (vld : PyDict → JValue → Option ValidationFailure)
    (hchk : chk (buildSchema sl) = none) :
    (vld (buildSchema sl) (JValue.obj jl) = none →
      json_validate (JValue.obj jl) (JValue.obj sl) chk vld = Except.ok (true, "OK"))
  ∧ (∀ b m, json_validate (JValue.obj jl) (JValue.obj sl) chk vld = Except.ok (b, m) →
      b = true → m = "OK")
  ∧ (∀ ex m, vld (buildSchema sl) (JValue.obj jl) = some ex →
      mkMessage ex = Except.ok m →
      json_validate (JValue.obj jl) (JValue.obj sl) chk vld
        = Except.ok (false,
            if ex.absolutePath.length > 0
            then "At /" ++ joinPath ex.absolutePath ++ ": " ++ m
            else m))
  ∧ (∀ ex, vld (buildSchema sl) (JValue.obj jl) = some ex →
      mkMessage ex = Except.error PyErr.typeError →
      json_validate (JValue.obj jl) (JValue.obj sl) chk vld
        = Except.error PyErr.typeError) := by
  refine ⟨?_, ?_, ?_, ?_⟩
  · intro hv
    simp only [json_validate_obj, hchk, hv]
  · intro b m hres htrue
    subst htrue
    cases hv : vld (buildSchema sl) (JValue.obj jl) with
    | none =>
      simp only [json_validate_obj, hchk, hv, Except.ok.injEq, Prod.mk.injEq,
        true_and] at hres
      exact hres.symm
    | some ex =>
      cases hm : mkMessage ex with
      | error e =>
        simp only [json_validate_obj, hchk, hv, hm] at hres
        exact Except.noConfusion hres
      | ok message =>
        by_cases hp : ex.absolutePath.length > 0
        · simp only [json_validate_obj, hchk, hv, hm, if_pos hp] at hres
          simp at hres
        · simp only [json_validate_obj, hchk, hv, hm, if_neg hp] at hres
          simp at hres
  · intro ex m hv hm
    by_cases hp : ex.absolutePath.length > 0
    · simp only [json_validate_obj, hchk, hv, hm, if_pos hp]
    · simp only [json_validate_obj, hchk, hv, hm, if_neg hp]
  · intro ex hv hm
    simp only [json_validate_obj, hchk, hv, hm]

/-- Witness for json_validate_outcome: empty record against empty skeleton,
with the collaborators behaving as jsonschema does there (valid schema, no
failure), returns (True, "OK"). -/
theorem json_validate_outcome_witness :
    json_validate (JValue.obj []) (JValue.obj []) accept_all_check accept_all_validator
      = Except.ok (true, "OK") :=
  (json_validate_outcome [] [] accept_all_check accept_all_validator rfl).1 rfl

/-- Claim C2: when `json_validate` reports a validation failure whose
message computation yielded `m`, a non-empty failure path produces the
return `(False, "At /" ++ segments joined by "/" ++ ": " ++ m)` and an
empty path produces `(False, m)` with no prefix (jsonval.py lines
806-810). -/
theorem failure_message_path_format (jl sl : PyDict) (chk : PyDict → Option String)
    (vld : PyDict → JValue → Option ValidationFailure) (ex : ValidationFailure) (m : String)
    (hchk : chk (buildSchema sl) = none)
    (hvld : vld (buildSchema sl) (JValue.obj jl) = some ex)
    (hm : mkMessage ex = Except.ok m) :
    (ex.absolutePath ≠ [] →
      json_validate (JValue.obj jl) (JValue.obj sl) chk vld
        = Except.ok (false, "At /" ++ joinPath ex.absolutePath ++ ": " ++ m))
  ∧ (ex.absolutePath = [] →
      json_validate (JValue.obj jl) (JValue.obj sl) chk vld = Except.ok (false, m)) := by
  constructor
  · intro hne
    simp only [json_validate_obj, hchk, hvld, hm, if_pos (List.length_pos.mpr hne)]
  · intro he
    have hp : ¬ ex.absolutePath.length > 0 := by simp [he]
    simp only [json_validate_obj, hchk, hvld, hm, if_neg hp]

/-- Witness for failure_message_path_format: a failure at instance path
a.b[2] yields the message prefix "At /a/b/2: ". -/
theorem failure_message_path_format_witness :
    json_validate (JValue.obj []) (JValue.obj []) accept_all_check (vld_of ex_path_ab2)
      = Except.ok (false, "At /a/b/2: \x27oops\x27 is too long") := by
  rw [(failure_message_path_format [] [] accept_all_check (vld_of ex_path_ab2)
    ex_path_ab2 "\x27oops\x27 is too long" rfl rfl rfl).1
      (by exact List.cons_ne_nil _ _)]
  rfl

/-- Claim C10: when the first failure's rejecting subschema carries an
`x-invalid-message` template and the offending instance value is not a
string, `json_validate` raises `TypeError` from the `str.replace`
substitution (only `KeyError` is caught at jsonval.py lines 801-804)
instead of returning a `(False, message)` result. -/
theorem template_nonstring_raises (jl sl : PyDict) (chk : PyDict → Option String)
    (vld : PyDict → JValue → Option ValidationFailure) (ex : ValidationFailure) (t : String)
    (hchk : chk (buildSchema sl) = none)
    (hvld : vld (buildSchema sl) (JValue.obj jl) = some ex)
    (ht : lookupKey ex.schema "x-invalid-message" = some (JValue.str t))
    (hns : ∀ s, ex.instVal ≠ JValue.str s) :
    json_validate (JValue.obj jl) (JValue.obj sl) chk vld
      = Except.error PyErr.typeError := by
  have hm : mkMessage ex = Except.error PyErr.typeError := by
    cases hi : ex.instVal with
    | str s => exact absurd hi (hns s)
    | null => simp only [mkMessage, ht, hi]
    | bool b => simp only [mkMessage, ht, hi]
    | int n => simp only [mkMessage, ht, hi]
    | num q => simp only [mkMessage, ht, hi]
    | arr xs => simp only [mkMessage, ht, hi]
    | obj kvs => simp only [mkMessage, ht, hi]
  simp only [json_validate_obj, hchk, hvld, hm]

/-- Witness for template_nonstring_raises: the Duration failure on the
integer 42 raises TypeError. -/
theorem template_nonstring_raises_witness :
    json_validate (JValue.obj [("x-factor", JValue.int 5)]) (JValue.obj [])
      accept_all_check (vld_of ex_duration_int) = Except.error PyErr.typeError :=
  template_nonstring_raises [("x-factor", JValue.int 5)] [] accept_all_check
    (vld_of ex_duration_int) ex_duration_int
    "\x27%s\x27 is not a valid ISO 8601 duration." rfl rfl rfl
    (fun _ h => JValue.noConfusion h)

/-- Claim C3 counterexample: a rejecting subschema whose `x-invalid-message`
template contains no `%s` placeholder.  The claim's "otherwise" clause says
the validator's default message (`ex.message`) is returned verbatim, but
the code keys only on the presence of the template (`KeyError` is the only
caught exception), so the placeholder-free template itself is returned and
the default message is not. -/
theorem template_message_cex :
    json_validate (JValue.obj []) (JValue.obj []) accept_all_check
        (vld_of ex_no_placeholder)
      = Except.ok (false, "not a valid duration.")
  ∧ ex_no_placeholder.message ≠ "not a valid duration." := by
  exact ⟨rfl, by decide⟩

/-- Claim C3 (amended): whenever the rejecting subschema carries an
`x-invalid-message` template (whether or not it contains `%s`) and the
offending value is a string, the message is the template with every `%s`
occurrence replaced by the offending value; only when no template is
present is the validator's default message used verbatim.  In particular
the template `'%s' is not valid.` rejecting `"PT10Mxx"` yields
`'PT10Mxx' is not valid.`. -/
theorem template_message_spec (ex : ValidationFailure) (t s : String)
    (ht : lookupKey ex.schema "x-invalid-message" = some (JValue.str t))
    (hs : ex.instVal = JValue.str s) :
    mkMessage ex = Except.ok (py_replace t "%s" s)
  ∧ (∀ ex2 : ValidationFailure, lookupKey ex2.schema "x-invalid-message" = none →
      mkMessage ex2 = Except.ok ex2.message)
  ∧ mkMessage ex_pt10 = Except.ok "\x27PT10Mxx\x27 is not valid." := by
  refine ⟨?_, ?_, rfl⟩
  · simp only [mkMessage, ht, hs]
  · intro ex2 h2
    simp only [mkMessage, h2]

/-- Witness for template_message_spec at `ex_pt10` itself. -/
theorem template_message_spec_witness :
    mkMessage ex_pt10 = Except.ok "\x27PT10Mxx\x27 is not valid." :=
  (template_message_spec ex_pt10 "\x27%s\x27 is not valid." "PT10Mxx" rfl rfl).2.2

/-- Claim C7 counterexample: a well-formed skeleton (the self-check passes,
as `accept_all_check` records) whose `howlong` field references the
dictionary's Duration type, with the record instance
\x7b"howlong": \x7b\x7d\x7d.  The first failure rejects the object value
with the Duration subschema, whose template substitution raises an uncaught
`TypeError`: the call does not complete with a (valid, message) pair. -/
theorem wellformed_no_defect_cex :
    json_validate (JValue.obj [("howlong", JValue.obj [])]) (JValue.obj skel_howlong)
      accept_all_check (vld_of ex_duration_obj) = Except.error PyErr.typeError := rfl

/-- Claim C7 (amended): with a well-formed composed schema (self-check
passes), `json_validate` on record inputs completes with a (valid, message)
pair provided every failure the validator can report has a successful
message computation; the `TypeError` path of the template substitution is
the only escape. -/
theorem wellformed_no_defect (jl sl : PyDict) (chk : PyDict → Option String)
    (vld : PyDict → JValue → Option ValidationFailure)
    (hchk : chk (buildSchema sl) = none)
    (hmsg : ∀ ex, vld (buildSchema sl) (JValue.obj jl) = some ex →
      ∃ m, mkMessage ex = Except.ok m) :
    exceptIsOk (json_validate (JValue.obj jl) (JValue.obj sl) chk vld) = true := by
  cases hv : vld (buildSchema sl) (JValue.obj jl) with
  | none => simp only [json_validate_obj, hchk, hv, exceptIsOk]
  | some ex =>
    obtain ⟨m, hm⟩ := hmsg ex hv
    by_cases hp : ex.absolutePath.length > 0
    · simp only [json_validate_obj, hchk, hv, hm, if_pos hp, exceptIsOk]
    · simp only [json_validate_obj, hchk, hv, hm, if_neg hp, exceptIsOk]

/-- Witness for wellformed_no_defect: the empty record against the empty
skeleton completes with a result pair. -/
theorem wellformed_no_defect_witness :
    exceptIsOk (json_validate (JValue.obj []) (JValue.obj [])
      accept_all_check accept_all_validator) = true :=
  wellformed_no_defect [] [] accept_all_check accept_all_validator rfl
    (fun _ h => Option.noConfusion h)

/-- Claim C8: `json_validate` is deterministic and side-effect-free: a call
leaves the module-level `__default_schema__` (threaded as `world`) exactly
as it found it, and a second call with identical arguments, made from the
state the first call left behind, returns the identical result.  The
source's only assignments (`schema[element] = ...`, lines 787-788) target
the top level of the call's own shallow copy, never the shared module
state. -/
theorem json_validate_pure (world : PyDict) (json skeleton : JValue)
    (chk : PyDict → Option String)
    (vld : PyDict → JValue → Option ValidationFailure) :
    (json_validate_world world json skeleton chk vld).2 = world
  ∧ (json_validate_world ((json_validate_world world json skeleton chk vld).2)
        json skeleton chk vld).1
      = (json_validate_world world json skeleton chk vld).1 := by
  have h2 : (json_validate_world world json skeleton chk vld).2 = world := by
    cases json with
    | obj jl =>
      cases skeleton with
      | obj sl =>
        simp only [json_validate_world]
        repeat' split
        all_goals rfl
      | null => rfl
      | bool b => rfl
      | int n => rfl
      | num q => rfl
      | str s => rfl
      | arr xs => rfl
    | null => rfl
    | bool b => rfl
    | int n => rfl
    | num q => rfl
    | str s => rfl
    | arr xs => rfl
  exact ⟨h2, by rw [h2]⟩

/-- Claim C9: refuted by the source.  The `UInt64` entry's `maximum`
literal is 184446744073709551615 (21 digits - a stray extra digit), not
2^64 - 1 = 18446744073709551615, so the out-of-range integer 2^64 =
18446744073709551616 is accepted by the dictionary entry's bounds even
though the claim (and the entry's evident fixed-bit-width intent, matching
every other Int/UInt entry) requires its rejection.  The genuine endpoints
behave as claimed. -/
theorem uint64_bounds_bug :
    int_schema_accepts UInt64_def 18446744073709551616 = true
  ∧ ¬((18446744073709551616 : Int) ≤ 2 ^ 64 - 1)
  ∧ int_schema_accepts UInt64_def 18446744073709551615 = true
  ∧ int_schema_accepts UInt64_def (-1) = false := by
  refine ⟨by decide, by norm_num, by decide, by decide⟩
